import Mathlib

/-!
Shallow embedding of the payroll / leave back office
(controllers `leave.controller.js`, `payroll.controller.js`,
`etfEpf.controller.js` and the payroll routes).

The relational store is modelled as lists of rows; each controller-level
operation becomes a pure function from a database state (plus request
payload) to an outcome paired with the successor state.  Monetary amounts,
rates and day counts are rationals; `Number.prototype.toFixed(2)` at the
points of persistence is modelled by `round2`.
-/

namespace Payroll

/-! ## Concrete fixtures used by witnesses and counterexamples -/

/-- Calendar date, compared lexicographically (the source compares ISO
`YYYY-MM-DD` strings / SQL DATE values, which agrees with this order). -/
structure Date where
  y : Nat
  m : Nat
  d : Nat
deriving DecidableEq, Repr

/-- Date comparison `a <= b`, matching SQL DATE / ISO-string comparison. -/
def Date.ble (a b : Date) : Bool :=
  a.y < b.y || (a.y == b.y && (a.m < b.m || (a.m == b.m && a.d ≤ b.d)))

/-- Clock time of day (`HH:MM`). -/
structure Time where
  hh : Nat
  mm : Nat
deriving DecidableEq, Repr

/-- Gregorian leap-year rule, as implemented by `new Date`. -/
def isLeap (y : Nat) : Bool :=
  y % 4 == 0 && (y % 100 != 0 || y % 400 == 0)

/-- Number of days of month `m` of year `y`: the value of
`new Date(year, month, 0).getDate()` used to build the period end. -/
def daysInMonth (y m : Nat) : Nat :=
  if m == 2 then (if isLeap y then 29 else 28)
  else if m == 4 || m == 6 || m == 9 || m == 11 then 30
  else 31

/-- First calendar day of the (year, month) period:
`` `${year}-${month}-01` `` in the source. -/
def periodStart (y m : Nat) : Date := ⟨y, m, 1⟩

/-- Last calendar day of the (year, month) period:
`new Date(year, month, 0)` in the source. -/
def periodEnd (y m : Nat) : Date := ⟨y, m, daysInMonth y m⟩

/-- Day number of a date in the proleptic Gregorian calendar (days since
0000-03-01, for years ≥ 1).  Used to give `dayjs` datetime differences an
exact meaning. -/
def daysFromCivil (dt : Date) : Nat :=
  let yAdj := if dt.m ≤ 2 then dt.y - 1 else dt.y
  let era := yAdj / 400
  let yoe := yAdj % 400
  let mp := if dt.m > 2 then dt.m - 3 else dt.m + 9
  let doy := (153 * mp + 2) / 5 + dt.d - 1
  let doe := yoe * 365 + yoe / 4 - yoe / 100 + doy
  era * 146097 + doe

/-- Minutes-since-epoch of a datetime; `dayjs#diff(_, 'minute')` of two
datetimes is the difference of their `toMinutes` values. -/
def toMinutes (d : Date) (t : Time) : Nat :=
  daysFromCivil d * 1440 + t.hh * 60 + t.mm

/-- Rounding to two decimals, the meaning of `x.toFixed(2)` at persistence
points (all such values in the modelled code are nonnegative, where
`toFixed` rounds half away from zero). -/
def round2 (q : ℚ) : ℚ := (⌊q * 100 + 1 / 2⌋ : ℚ) / 100

/-! ## Row types and database state -/

/-- Row of `employees` (the columns the modelled code reads). -/
structure EmployeeRow where
  id : Nat
  department_id : Option Nat
  grade_id : Option Nat
deriving DecidableEq, Repr

/-- Row of `salaries`; `ORDER BY id DESC LIMIT 1` picks the largest `id`. -/
structure SalaryRow where
  id : Nat
  employee_id : Nat
  basic_salary : ℚ
deriving DecidableEq, Repr

/-- Row of `allowances`; `active` models `status = 'Active'`. -/
structure AllowanceRow where
  employee_id : Nat
  active : Bool
  effective_from : Option Date
  effective_to : Option Date
  amount : ℚ
deriving DecidableEq, Repr

/-- Row of `overtime_adjustments`; only the date part of `created_at`
matters to `MONTH(created_at)` / `YEAR(created_at)`. -/
structure OvertimeRow where
  employee_id : Nat
  created_at : Date
  ot_hours : ℚ
  ot_rate : ℚ
deriving DecidableEq, Repr

/-- Row of `bonuses`. -/
structure BonusRow where
  employee_id : Nat
  effective_date : Date
  amount : ℚ
deriving DecidableEq, Repr

/-- Row of `deductions`.  `nameHasEpf` models the textual convention
`name LIKE '%EPF%'`; `basisPercent` models `basis = 'Percent'`. -/
structure DeductionRow where
  employee_id : Nat
  active : Bool
  nameHasEpf : Bool
  basisPercent : Bool
  amount : Option ℚ
  percent : Option ℚ
  effective_date : Date
deriving DecidableEq, Repr

/-- Status of a leave request (`status` column of `leave_requests`). -/
inductive LrStatus
  | PENDING
  | APPROVED
  | REJECTED
deriving DecidableEq, Repr

/-- Row of `leave_requests`. -/
structure LeaveRequestRow where
  id : Nat
  employee_id : Nat
  leave_type_id : Nat
  start_date : Date
  end_date : Date
  start_time : Option Time
  end_time : Option Time
  duration_hours : ℚ
  department_id : Option Nat
  status : LrStatus
  created_by_user_id : Nat
  decided_by_user_id : Option Nat
  decided_at : Option Nat
  decision_note : Option String
deriving DecidableEq, Repr

/-- Row of `leave_balances`; key is (employee_id, leave_type_id, year). -/
structure LeaveBalanceRow where
  employee_id : Nat
  leave_type_id : Nat
  year : Nat
  entitled_days : ℚ
  used_days : ℚ
deriving DecidableEq, Repr

/-- Row of `leave_rules`; NULL limits are read as 0 by the controller. -/
structure LeaveRuleRow where
  grade_id : Nat
  annual_limit : Option ℚ
  medical_limit : Option ℚ
deriving DecidableEq, Repr

/-- Status of an `unpaid_leaves` row. -/
inductive UlStatus
  | Pending
  | Processed
deriving DecidableEq, Repr

/-- Information content of the human-readable `reason` message the breach
generator formats (the source builds a template string naming the limit and
the rounded excess). -/
inductive BreachReason
  | annualExceeded (limit excessShown : ℚ)
  | medicalExceeded (limit excessShown : ℚ)
  | other
deriving DecidableEq, Repr

/-- Row of `unpaid_leaves`.  `updated_at` models the DB-maintained
timestamp column (date part), which the deductions aggregator filters on. -/
structure UnpaidLeaveRow where
  employee_id : Nat
  start_date : Date
  end_date : Date
  total_days : ℚ
  reason : BreachReason
  status : UlStatus
  deduction_amount : Option ℚ
  updated_at : Date
deriving DecidableEq, Repr

/-- Row of `employee_etf_epf`; NULL rates fall back to 8/12/3 via SQL
`COALESCE` in every reader. -/
structure EtfEpfConfigRow where
  employee_id : Nat
  epf_contribution_rate : Option ℚ
  employer_epf_rate : Option ℚ
  etf_contribution_rate : Option ℚ
deriving DecidableEq, Repr

/-- Row of `payroll_etf_epf_transactions`. -/
structure EtfEpfTxRow where
  employee_id : Nat
  period_year : Nat
  period_month : Nat
  gross_salary : ℚ
  employee_epf_amount : ℚ
  epf_employer_share : ℚ
  employer_etf_amount : ℚ
  processed_by : Nat
deriving DecidableEq, Repr

/-- Status of a `payroll_transfers` row. -/
inductive TransferStatus
  | Pending
  | Processing
  | Completed
deriving DecidableEq, Repr

/-- Row of `payroll_transfers`. -/
structure TransferRow where
  employee_id : Nat
  period_year : Nat
  period_month : Nat
  gross_salary : ℚ
  total_deductions : ℚ
  net_salary : ℚ
  status : TransferStatus
deriving DecidableEq, Repr

/-- The relational store: one list of rows per table the modelled
controllers touch. -/
structure Db where
  employees : List EmployeeRow := []
  salaries : List SalaryRow := []
  allowances : List AllowanceRow := []
  overtime_adjustments : List OvertimeRow := []
  bonuses : List BonusRow := []
  deductions : List DeductionRow := []
  leave_requests : List LeaveRequestRow := []
  leave_balances : List LeaveBalanceRow := []
  leave_rules : List LeaveRuleRow := []
  unpaid_leaves : List UnpaidLeaveRow := []
  employee_etf_epf : List EtfEpfConfigRow := []
  payroll_etf_epf_transactions : List EtfEpfTxRow := []
  payroll_transfers : List TransferRow := []
deriving DecidableEq, Repr

/-! ## Gross earnings aggregators -/

/-- The query `SELECT basic_salary FROM salaries WHERE employee_id = ?
ORDER BY id DESC LIMIT 1`, issued verbatim by `calculateGrossSalary`,
`calculateDeductions` and `getGrossComponentsForPeriod`; a missing row or
NULL salary is coalesced to 0 by `Number(... || 0)`. -/
def latestBasicSalary (db : Db) (employee_id : Nat) : ℚ :=
  match db.salaries.foldl
      (fun acc r =>
        if r.employee_id == employee_id then
          match acc with
          | none => some r
          | some b => if b.id < r.id then some r else some b
        else acc)
      none with
  | some r => r.basic_salary
  | none => 0

/-- Result shape of `calculateGrossSalary` (payroll controller). -/
structure GrossResult where
  basic_salary : ℚ
  allowances : ℚ
  overtime : ℚ
  bonuses : ℚ
  gross_salary : ℚ
deriving DecidableEq, Repr

/-- `calculateGrossSalary` of `payroll.controller.js`: latest basic salary,
plus active allowances overlapping the period, overtime (`ot_hours *
ot_rate`) created in the calendar month, and bonuses effective in the
calendar month. -/
def calculateGrossSalary (db : Db) (employee_id year month : Nat) : GrossResult :=
  let basicSalary := latestBasicSalary db employee_id
  let allowancesTotal :=
    ((db.allowances.filter fun a =>
        a.employee_id == employee_id && a.active &&
        (match a.effective_from with
          | none => true
          | some d => d.ble (periodEnd year month)) &&
        (match a.effective_to with
          | none => true
          | some d => (periodStart year month).ble d)).map
      (fun a => a.amount)).sum
  let overtimeTotal :=
    ((db.overtime_adjustments.filter fun o =>
        o.employee_id == employee_id && o.created_at.m == month &&
        o.created_at.y == year).map
      (fun o => o.ot_hours * o.ot_rate)).sum
  let bonusTotal :=
    ((db.bonuses.filter fun b =>
        b.employee_id == employee_id && b.effective_date.m == month &&
        b.effective_date.y == year).map
      (fun b => b.amount)).sum
  { basic_salary := basicSalary
    allowances := allowancesTotal
    overtime := overtimeTotal
    bonuses := bonusTotal
    gross_salary := basicSalary + allowancesTotal + overtimeTotal + bonusTotal }

/-- Result shape of `getGrossComponentsForPeriod` (ETF/EPF controller). -/
structure GrossComponents where
  basic_salary : ℚ
  allowances_sum : ℚ
  overtime_sum : ℚ
  compensation_sum : ℚ
  gross_salary_for_epf : ℚ
deriving DecidableEq, Repr

/-- `getGrossComponentsForPeriod` of `etfEpf.controller.js`: latest basic
salary plus the three correlated subqueries (active allowances overlapping
the period, overtime created in the month, bonuses effective in the
month). -/
def getGrossComponentsForPeriod (db : Db) (employee_id year month : Nat) :
    GrossComponents :=
  let basicSalary := latestBasicSalary db employee_id
  let allowances :=
    ((db.allowances.filter fun a =>
        a.employee_id == employee_id && a.active &&
        (match a.effective_from with
          | none => true
          | some d => d.ble (periodEnd year month)) &&
        (match a.effective_to with
          | none => true
          | some d => (periodStart year month).ble d)).map
      (fun a => a.amount)).sum
  let overtime :=
    ((db.overtime_adjustments.filter fun o =>
        o.employee_id == employee_id && o.created_at.m == month &&
        o.created_at.y == year).map
      (fun o => o.ot_hours * o.ot_rate)).sum
  let compensation :=
    ((db.bonuses.filter fun b =>
        b.employee_id == employee_id && b.effective_date.m == month &&
        b.effective_date.y == year).map
      (fun b => b.amount)).sum
  { basic_salary := basicSalary
    allowances_sum := allowances
    overtime_sum := overtime
    compensation_sum := compensation
    gross_salary_for_epf := basicSalary + allowances + overtime + compensation }

/-! ## Deductions aggregator and payslip details -/

/-- Result shape of `calculateDeductions` (payroll controller). -/
structure DeductionsResult where
  regular_total : ℚ
  unpaid_leave_deduction : ℚ
  epf_deduction : ℚ
  total_deductions : ℚ
deriving DecidableEq, Repr

/-- `calculateDeductions` of `payroll.controller.js`: active non-EPF-named
deductions effective in the month (percent basis applied to the latest
basic salary), plus processed unpaid-leave deduction amounts whose
`updated_at` falls in the month, plus the employee EPF contribution
`basic * rate / 100` (rate coalesced to 8, and `|| 8.00` also maps a
stored 0 rate to 8). -/
def calculateDeductions (db : Db) (employee_id year month : Nat) :
    DeductionsResult :=
  let basicSalary := latestBasicSalary db employee_id
  let regularTotal :=
    ((db.deductions.filter fun d =>
        d.employee_id == employee_id && d.active &&
        d.effective_date.m == month && d.effective_date.y == year &&
        !d.nameHasEpf).map
      (fun d =>
        if d.basisPercent then (d.percent.getD 0) / 100 * basicSalary
        else d.amount.getD 0)).sum
  let unpaidLeaveTotal :=
    ((db.unpaid_leaves.filter fun u =>
        u.employee_id == employee_id && u.status == UlStatus.Processed &&
        u.updated_at.m == month && u.updated_at.y == year).map
      (fun u => u.deduction_amount.getD 0)).sum
  let epfRate :=
    match db.employee_etf_epf.find? (fun c => c.employee_id == employee_id) with
    | none => 8
    | some c =>
      let r := c.epf_contribution_rate.getD 8
      if r == 0 then 8 else r
  let epfDeduction := basicSalary * epfRate / 100
  { regular_total := regularTotal
    unpaid_leave_deduction := unpaidLeaveTotal
    epf_deduction := epfDeduction
    total_deductions := regularTotal + unpaidLeaveTotal + epfDeduction }

/-- Employer EPF rate as read by `getEmployeePayrollDetails`:
`COALESCE(employer_epf_rate, 12.00)` in SQL followed by
`Number(etfEpf?.employer_epf_rate || 12.00)` in JS (a stored 0 also
becomes 12, and a missing config row becomes 12). -/
def payslipEmployerEpfRate (db : Db) (employee_id : Nat) : ℚ :=
  match db.employee_etf_epf.find? (fun c => c.employee_id == employee_id) with
  | none => 12
  | some c =>
    let r := c.employer_epf_rate.getD 12
    if r == 0 then 12 else r

/-- Employer ETF rate as read by `getEmployeePayrollDetails`:
`COALESCE(etf_contribution_rate, 3.00)` followed by `|| 3.00`. -/
def payslipEmployerEtfRate (db : Db) (employee_id : Nat) : ℚ :=
  match db.employee_etf_epf.find? (fun c => c.employee_id == employee_id) with
  | none => 3
  | some c =>
    let r := c.etf_contribution_rate.getD 3
    if r == 0 then 3 else r

/-- The load-bearing fields of the payload `getEmployeePayrollDetails`
builds for `res.json` (`summary` and `employer_contributions`). -/
structure PayrollDetails where
  gross_salary : ℚ
  total_deductions : ℚ
  net_salary : ℚ
  employer_epf : ℚ
  employer_etf : ℚ
deriving DecidableEq, Repr

/-- Payload semantics of `getEmployeePayrollDetails` (payroll controller):
`none` models the 404 branch for a missing employee.  The employer
contributions are computed from `earnings.basic_salary` (the source binds
`const basicSalary = earnings.basic_salary` and multiplies the rates into
that), not from the gross.  Note that the source function only passes this
payload to `res.json` and returns `undefined` to programmatic callers,
which matters to `processSalaryTransfer` below. -/
def getEmployeePayrollDetails (db : Db) (employee_id year month : Nat) :
    Option PayrollDetails :=
  match db.employees.find? (fun e => e.id == employee_id) with
  | none => none
  | some _ =>
    let earnings := calculateGrossSalary db employee_id year month
    let deductions := calculateDeductions db employee_id year month
    let basicSalary := earnings.basic_salary
    let employerEpf := basicSalary * payslipEmployerEpfRate db employee_id / 100
    let employerEtf := basicSalary * payslipEmployerEtfRate db employee_id / 100
    let netPay := earnings.gross_salary - deductions.total_deductions
    some
      { gross_salary := earnings.gross_salary
        total_deductions := deductions.total_deductions
        net_salary := netPay
        employer_epf := employerEpf
        employer_etf := employerEtf }

/-! ## ETF/EPF statutory processing -/

/-- Outcome of a batch endpoint call. -/
inductive BatchOutcome
  | badRequest
  | ok (processed_count : Nat)
deriving DecidableEq, Repr

/-- Key predicate of the `WHERE employee_id = ? AND period_year = ? AND
period_month = ?` clause on `payroll_etf_epf_transactions`. -/
def txKey (employee_id year month : Nat) (t : EtfEpfTxRow) : Bool :=
  t.employee_id == employee_id && t.period_year == year &&
  t.period_month == month

/-- One iteration of the `processEtfEpfPayments` loop for `employee_id`:
skip when a transaction for (employee, period) exists, skip when the
employee has no `employee_etf_epf` row, skip when the recomputed gross is
not positive; otherwise insert one transaction row with 2-decimal-rounded
amounts `gross * rate / 100` (rates coalesced to 8/12/3).  Returns the
successor state and whether the employee was processed. -/
def etfEpfStep (year month user_id : Nat) (db : Db) (employee_id : Nat) :
    Db × Bool :=
  if (db.payroll_etf_epf_transactions.find?
      (txKey employee_id year month)).isSome then
    (db, false)
  else
    match db.employee_etf_epf.find? (fun c => c.employee_id == employee_id) with
    | none => (db, false)
    | some rates =>
      let epf_rate := rates.epf_contribution_rate.getD 8
      let employer_epf_rate := rates.employer_epf_rate.getD 12
      let etf_rate := rates.etf_contribution_rate.getD 3
      let gross :=
        (getGrossComponentsForPeriod db employee_id year month).gross_salary_for_epf
      if gross ≤ 0 then (db, false)
      else
        let employeeEpf := gross * epf_rate / 100
        let employerEpf := gross * employer_epf_rate / 100
        let employerEtf := gross * etf_rate / 100
        ({ db with
            payroll_etf_epf_transactions :=
              db.payroll_etf_epf_transactions ++
                [{ employee_id := employee_id
                   period_year := year
                   period_month := month
                   gross_salary := round2 gross
                   employee_epf_amount := round2 employeeEpf
                   epf_employer_share := round2 employerEpf
                   employer_etf_amount := round2 employerEtf
                   processed_by := user_id }] },
          true)

/-- Loop body of `processEtfEpfPayments` over the posted `employee_ids`. -/
def etfEpfLoop (year month user_id : Nat) (db : Db) :
    List Nat → Db × Nat
  | [] => (db, 0)
  | e :: rest =>
    let step := etfEpfStep year month user_id db e
    let next := etfEpfLoop year month user_id step.1 rest
    (next.1, (if step.2 then 1 else 0) + next.2)

/-- `processEtfEpfPayments` of `etfEpf.controller.js`: validates the
payload (`!numMonth || !numYear || !employee_ids || employee_ids.length
=== 0`), then runs the per-employee loop inside one transaction. -/
def processEtfEpfPayments (db : Db) (employee_ids : List Nat)
    (year month user_id : Nat) : BatchOutcome × Db :=
  if month = 0 ∨ year = 0 ∨ employee_ids = [] then
    (BatchOutcome.badRequest, db)
  else
    let r := etfEpfLoop year month user_id db employee_ids
    (BatchOutcome.ok r.2, r.1)

/-- The transactions stored for one (employee, period) key: the rows the
`SELECT id FROM payroll_etf_epf_transactions WHERE ...` existence check is
about. -/
def txFor (db : Db) (employee_id year month : Nat) : List EtfEpfTxRow :=
  db.payroll_etf_epf_transactions.filter (txKey employee_id year month)

/-! ## Leave requests: creation -/

/-- `computeDurationHours` of `leave.controller.js`: build start and end
datetimes (time part defaulting to 09:00 resp. 18:00 when absent), take
`Math.max(0, e.diff(s, 'minute')) / 60` and round with `toFixed(2)`. -/
def computeDurationHours (startDate endDate : Date)
    (startTime endTime : Option Time) : ℚ :=
  let s := toMinutes startDate (startTime.getD ⟨9, 0⟩)
  let e := toMinutes endDate (endTime.getD ⟨18, 0⟩)
  let h : ℚ := ((max 0 ((e : ℤ) - (s : ℤ)) : ℤ) : ℚ) / 60
  round2 h

/-- Request body of the leave-creation endpoint; `duration_hours = none`
models a null or absent `duration_hours` field. -/
structure CreateInput where
  employee_id : Nat
  leave_type_id : Nat
  start_date : Date
  end_date : Date
  start_time : Option Time
  end_time : Option Time
  duration_hours : Option ℚ
deriving DecidableEq, Repr

/-- Outcome of `createRequest`. -/
inductive CreateOutcome
  | notFound
  | created (id : Nat) (duration_hours : ℚ)
deriving DecidableEq, Repr

/-- `createRequest` of `leave.controller.js`: look the employee up first
(404 when absent), store the caller's `duration_hours` verbatim when it is
neither null nor undefined and otherwise compute it, then insert one
PENDING row.  `newId` models the auto-increment id MySQL assigns. -/
def createRequest (db : Db) (inp : CreateInput) (user_id newId : Nat) :
    CreateOutcome × Db :=
  match db.employees.find? (fun e => e.id == inp.employee_id) with
  | none => (CreateOutcome.notFound, db)
  | some emp =>
    let duration_hours :=
      match inp.duration_hours with
      | some d => d
      | none =>
        computeDurationHours inp.start_date inp.end_date inp.start_time
          inp.end_time
    (CreateOutcome.created newId duration_hours,
      { db with
          leave_requests :=
            db.leave_requests ++
              [{ id := newId
                 employee_id := inp.employee_id
                 leave_type_id := inp.leave_type_id
                 start_date := inp.start_date
                 end_date := inp.end_date
                 start_time := inp.start_time
                 end_time := inp.end_time
                 duration_hours := duration_hours
                 department_id := emp.department_id
                 status := LrStatus.PENDING
                 created_by_user_id := user_id
                 decided_by_user_id := none
                 decided_at := none
                 decision_note := none }] })

/-! ## Leave requests: decision, balances and breach generation -/

/-- `action` field of the decision endpoint; `OTHER` stands for any string
different from the three the controller compares against. -/
inductive Action
  | APPROVE
  | REJECT
  | RESPOND
  | OTHER
deriving DecidableEq, Repr

/-- Outcome of `decideRequest` (the HTTP response): 404, the 400
`Already decided` branch, or success carrying the new status. -/
inductive DecideOutcome
  | notFound
  | alreadyDecided
  | done (newStatus : LrStatus)
deriving DecidableEq, Repr

/-- Wall clock of one request: `tick` models `NOW()` for `decided_at` and
`today` the date part of the DB-maintained timestamps on inserted rows. -/
structure Clock where
  tick : Nat
  today : Date
deriving DecidableEq, Repr

/-- Key predicate of the unique key of `leave_balances`, used both by the
`ON DUPLICATE KEY` upsert and by the post-upsert totals query (which
filters on employee and year and groups by leave type). -/
def balKey (employee_id leave_type_id year : Nat) (b : LeaveBalanceRow) :
    Bool :=
  b.employee_id == employee_id && b.leave_type_id == leave_type_id &&
  b.year == year

/-- Add `delta` to the `used_days` of the first row matching `p` (the
unique key of `leave_balances` guarantees at most one row conflicts, and
`ON DUPLICATE KEY UPDATE` touches exactly that row). -/
def addUsedToFirst (p : LeaveBalanceRow → Bool) (delta : ℚ) :
    List LeaveBalanceRow → List LeaveBalanceRow
  | [] => []
  | b :: rest =>
    if p b then { b with used_days := b.used_days + delta } :: rest
    else b :: addUsedToFirst p delta rest

/-- The `INSERT ... ON DUPLICATE KEY UPDATE used_days = used_days +
VALUES(used_days)` upsert on `leave_balances`: insert a fresh row with
`entitled_days = 0` or add the delta to the existing row for the key. -/
def upsertBalanceList (l : List LeaveBalanceRow)
    (employee_id leave_type_id year : Nat) (delta : ℚ) :
    List LeaveBalanceRow :=
  if (l.find? (balKey employee_id leave_type_id year)).isSome then
    addUsedToFirst (balKey employee_id leave_type_id year) delta l
  else
    l ++
      [{ employee_id := employee_id
         leave_type_id := leave_type_id
         year := year
         entitled_days := 0
         used_days := delta }]

/-- Sum of `used_days` over the rows matched by `p` (SQL `SUM` of a
filtered selection, NULL-free here). -/
def usedSum (l : List LeaveBalanceRow) (p : LeaveBalanceRow → Bool) : ℚ :=
  ((l.filter p).map (fun b => b.used_days)).sum

/-- Stored total `used_days` for one (employee, leave type, year): the
value of `SELECT SUM(used_days) ... WHERE employee_id = ? AND year = ?
GROUP BY leave_type_id` at the request's type, coalesced to 0. -/
def totalUsed (db : Db) (employee_id leave_type_id year : Nat) : ℚ :=
  usedSum db.leave_balances (balKey employee_id leave_type_id year)

/-- The `UPDATE leave_requests SET status = ?, decided_by_user_id = ?,
decided_at = NOW(), decision_note = COALESCE(?, decision_note) WHERE id =
?` statement (`note || null` turns an absent note into SQL NULL). -/
def requestUpdate (db : Db) (id : Nat) (newStatus : LrStatus)
    (note : Option String) (user_id : Nat) (clock : Clock) : Db :=
  { db with
      leave_requests :=
        db.leave_requests.map fun r =>
          if r.id = id then
            { r with
                status := newStatus
                decided_by_user_id := some user_id
                decided_at := some clock.tick
                decision_note :=
                  match note with
                  | some n => some n
                  | none => r.decision_note }
          else r }

/-- The `action === 'APPROVE'` block of `decideRequest`: balance upsert of
`(duration_hours / 9).toFixed(2)` days under the year of `start_date`,
grade-rule lookup (`emp?.grade_id || 0`, missing rule or NULL limit read
as 0), re-read of the post-upsert per-type totals, mutate-style
accumulation of `exceededDays` over the two type checks, and insertion of
one `unpaid_leaves` row holding the rounded excess when `exceededDays`
is above the 0.01 guard band. -/
def approveEffects (db : Db) (lr : LeaveRequestRow) (clock : Clock) : Db :=
  let year := lr.start_date.y
  let daysUsedByRequest := lr.duration_hours / 9
  let db2 :=
    { db with
        leave_balances :=
          upsertBalanceList db.leave_balances lr.employee_id
            lr.leave_type_id year (round2 daysUsedByRequest) }
  let gradeId :=
    match db2.employees.find? (fun e => e.id == lr.employee_id) with
    | none => 0
    | some e => e.grade_id.getD 0
  let rules := db2.leave_rules.find? (fun ru => ru.grade_id == gradeId)
  let annualLimit :=
    match rules with
    | none => 0
    | some ru => ru.annual_limit.getD 0
  let medicalLimit :=
    match rules with
    | none => 0
    | some ru => ru.medical_limit.getD 0
  let currentAnnualUsed := totalUsed db2 lr.employee_id 1 year
  let currentMedicalUsed := totalUsed db2 lr.employee_id 2 year
  let exceededAfterAnnual : ℚ :=
    if 0 < annualLimit ∧ lr.leave_type_id = 1 ∧
        annualLimit < currentAnnualUsed then
      currentAnnualUsed - annualLimit
    else 0
  let exceededDays : ℚ :=
    if 0 < medicalLimit ∧ lr.leave_type_id = 2 ∧
        medicalLimit < currentMedicalUsed then
      currentMedicalUsed - medicalLimit
    else exceededAfterAnnual
  let reason :=
    if 0 < medicalLimit ∧ lr.leave_type_id = 2 ∧
        medicalLimit < currentMedicalUsed then
      BreachReason.medicalExceeded medicalLimit (round2 exceededDays)
    else if 0 < annualLimit ∧ lr.leave_type_id = 1 ∧
        annualLimit < currentAnnualUsed then
      BreachReason.annualExceeded annualLimit (round2 exceededDays)
    else BreachReason.other
  if 1 / 100 < exceededDays then
    { db2 with
        unpaid_leaves :=
          db2.unpaid_leaves ++
            [{ employee_id := lr.employee_id
               start_date := lr.start_date
               end_date := lr.end_date
               total_days := round2 exceededDays
               reason := reason
               status := UlStatus.Pending
               deduction_amount := none
               updated_at := clock.today }]}
  else db2

/-- `decideRequest` of `leave.controller.js`: 404 on a missing request,
the 400 `Already decided` branch for any action other than RESPOND on a
non-PENDING request, then the row update followed (on APPROVE only) by
the balance/breach block, all inside one transaction. -/
def decideRequest (db : Db) (id : Nat) (action : Action)
    (note : Option String) (user_id : Nat) (clock : Clock) :
    DecideOutcome × Db :=
  match db.leave_requests.find? (fun r => r.id == id) with
  | none => (DecideOutcome.notFound, db)
  | some lr =>
    if lr.status ≠ LrStatus.PENDING ∧ action ≠ Action.RESPOND then
      (DecideOutcome.alreadyDecided, db)
    else
      let newStatus :=
        if action = Action.APPROVE then LrStatus.APPROVED
        else if action = Action.REJECT then LrStatus.REJECTED
        else lr.status
      let db1 := requestUpdate db id newStatus note user_id clock
      if action = Action.APPROVE then
        (DecideOutcome.done newStatus, approveEffects db1 lr clock)
      else (DecideOutcome.done newStatus, db1)

/-- One queued call of the decision endpoint, for iterating sequences of
decisions. -/
structure DecideCall where
  id : Nat
  action : Action
  note : Option String
  user_id : Nat
  clock : Clock
deriving Repr

/-- Sequential application of decision calls (each request handler runs to
completion before the next starts). -/
def applyDecides (db : Db) : List DecideCall → Db
  | [] => db
  | c :: rest => applyDecides (decideRequest db c.id c.action c.note c.user_id c.clock).2 rest

/-! ## Salary transfer batch -/

/-- Outcome of `processSalaryTransfer`. -/
inductive TransferOutcome
  | badRequest
  | serverError
  | ok (processed_count : Nat)
deriving DecidableEq, Repr

/-- Loop of `processSalaryTransfer` over the posted `employee_ids`,
carrying the original state `db0` for the rollback.  An employee with an
existing `payroll_transfers` row for the period is skipped (`continue`).
For any other employee the source calls `getEmployeePayrollDetails` with
the mock response object `{ json: (data) => data }`; that controller sends
its payload through `res.json(...)` as a statement and returns
`undefined`, so the following `payrollData.ok` dereference throws a
TypeError, the surrounding catch rolls the whole transaction back and the
endpoint answers 500 — the insert below the check is unreachable. -/
def transferLoop (db0 : Db) (year month : Nat) :
    Db → List Nat → TransferOutcome × Db
  | dbCur, [] => (TransferOutcome.ok 0, dbCur)
  | dbCur, e :: rest =>
    if (dbCur.payroll_transfers.find? fun t =>
        t.employee_id == e && t.period_year == year &&
        t.period_month == month).isSome then
      transferLoop db0 year month dbCur rest
    else
      (TransferOutcome.serverError, db0)

/-- `processSalaryTransfer` of `payroll.controller.js`: validates the
payload, then runs the per-employee loop inside one transaction. -/
def processSalaryTransfer (db : Db) (employee_ids : List Nat)
    (year month : Nat) : TransferOutcome × Db :=
  if employee_ids = [] then (TransferOutcome.badRequest, db)
  else if month = 0 ∨ year = 0 then (TransferOutcome.badRequest, db)
  else transferLoop db year month db employee_ids

/-! ## Statement-level vocabulary for the claims -/

/-- The limit the breach generator applies to the request's own leave
type: the grade rule's `annual_limit` for type 1, its `medical_limit` for
type 2, and 0 (the "unset" sentinel) for any other type, with the same
`emp?.grade_id || 0` / missing-rule / NULL-limit readings the controller
performs. -/
def applicableLimit (db : Db) (lr : LeaveRequestRow) : ℚ :=
  let gradeId :=
    match db.employees.find? (fun e => e.id == lr.employee_id) with
    | none => 0
    | some e => e.grade_id.getD 0
  let rules := db.leave_rules.find? (fun ru => ru.grade_id == gradeId)
  if lr.leave_type_id = 1 then
    match rules with
    | none => 0
    | some ru => ru.annual_limit.getD 0
  else if lr.leave_type_id = 2 then
    match rules with
    | none => 0
    | some ru => ru.medical_limit.getD 0
  else 0

/-- The `unpaid_leaves` row the breach generator files for a request that
took the post-upsert total `usedAfter` over the limit `lim`. -/
def breachRow (lr : LeaveRequestRow) (lim usedAfter : ℚ) (clock : Clock) :
    UnpaidLeaveRow :=
  { employee_id := lr.employee_id
    start_date := lr.start_date
    end_date := lr.end_date
    total_days := round2 (usedAfter - lim)
    reason :=
      if lr.leave_type_id = 1 then
        BreachReason.annualExceeded lim (round2 (usedAfter - lim))
      else BreachReason.medicalExceeded lim (round2 (usedAfter - lim))
    status := UlStatus.Pending
    deduction_amount := none
    updated_at := clock.today }

/-! ## Concrete fixtures used by witnesses and counterexamples -/

/-- Witness for C4: a concrete already-APPROVED request; a second APPROVE
is rejected and the state is untouched. -/
def lrW4 : LeaveRequestRow :=
  { id := 20, employee_id := 1, leave_type_id := 1,
    start_date := ⟨2024, 2, 5⟩, end_date := ⟨2024, 2, 6⟩,
    start_time := none, end_time := none, duration_hours := 18,
    department_id := none, status := LrStatus.APPROVED,
    created_by_user_id := 1, decided_by_user_id := some 3,
    decided_at := some 50, decision_note := none }

def dbW4 : Db :=
  { employees := [{ id := 1, department_id := none, grade_id := some 1 }]
    leave_requests := [lrW4] }

/-- Witness for C9: responding to a concrete PENDING request only touches
the decision fields. -/
def lrW9 : LeaveRequestRow :=
  { id := 21, employee_id := 1, leave_type_id := 1,
    start_date := ⟨2024, 2, 5⟩, end_date := ⟨2024, 2, 6⟩,
    start_time := none, end_time := none, duration_hours := 9,
    department_id := none, status := LrStatus.PENDING,
    created_by_user_id := 1, decided_by_user_id := none,
    decided_at := none, decision_note := none }

def dbW9 : Db := { leave_requests := [lrW9] }

/-- Witness for C10: creation against an empty employees table fails and
leaves the state unchanged. -/
def inpW10 : CreateInput :=
  { employee_id := 5, leave_type_id := 1, start_date := ⟨2024, 3, 1⟩,
    end_date := ⟨2024, 3, 1⟩, start_time := none, end_time := none,
    duration_hours := none }

def dbC7 : Db :=
  { employees := [{ id := 1, department_id := none, grade_id := none }]
    salaries := [{ id := 1, employee_id := 1, basic_salary := 1000 }] }

def txW6 : EtfEpfTxRow :=
  { employee_id := 1, period_year := 2024, period_month := 5,
    gross_salary := 1500, employee_epf_amount := 120,
    epf_employer_share := 180, employer_etf_amount := 45,
    processed_by := 2 }

def dbW6 : Db := { payroll_etf_epf_transactions := [txW6] }

def lrW2 : LeaveRequestRow :=
  { id := 10, employee_id := 1, leave_type_id := 1,
    start_date := ⟨2024, 3, 4⟩, end_date := ⟨2024, 3, 5⟩,
    start_time := none, end_time := none, duration_hours := 18,
    department_id := none, status := LrStatus.PENDING,
    created_by_user_id := 1, decided_by_user_id := none,
    decided_at := none, decision_note := none }

def dbW2 : Db :=
  { employees := [{ id := 1, department_id := none, grade_id := some 1 }]
    leave_requests := [lrW2]
    leave_balances :=
      [{ employee_id := 1, leave_type_id := 1, year := 2024,
         entitled_days := 0, used_days := 13 }]
    leave_rules :=
      [{ grade_id := 1, annual_limit := some 14, medical_limit := some 7 }] }

def lrC3 : LeaveRequestRow :=
  { id := 30, employee_id := 2, leave_type_id := 1,
    start_date := ⟨2024, 4, 1⟩, end_date := ⟨2024, 4, 1⟩,
    start_time := none, end_time := none, duration_hours := 4,
    department_id := none, status := LrStatus.PENDING,
    created_by_user_id := 1, decided_by_user_id := none,
    decided_at := none, decision_note := none }

def dbC3 : Db :=
  { employees := [{ id := 2, department_id := none, grade_id := none }]
    leave_requests := [lrC3] }

def lrW3 : LeaveRequestRow :=
  { id := 31, employee_id := 1, leave_type_id := 1,
    start_date := ⟨2024, 3, 4⟩, end_date := ⟨2024, 3, 5⟩,
    start_time := none, end_time := none, duration_hours := 18,
    department_id := none, status := LrStatus.PENDING,
    created_by_user_id := 1, decided_by_user_id := none,
    decided_at := none, decision_note := none }

def dbW3 : Db :=
  { employees := [{ id := 1, department_id := none, grade_id := none }]
    leave_requests := [lrW3]
    leave_balances :=
      [{ employee_id := 1, leave_type_id := 1, year := 2024,
         entitled_days := 0, used_days := 13 }] }

def dbC5 : Db :=
  { employees := [{ id := 1, department_id := none, grade_id := none }]
    salaries := [{ id := 1, employee_id := 1, basic_salary := 1000 }]
    allowances :=
      [{ employee_id := 1, active := true, effective_from := none,
         effective_to := none, amount := 500 }] }

def cfgW5 : EtfEpfConfigRow :=
  { employee_id := 1, epf_contribution_rate := none,
    employer_epf_rate := none, etf_contribution_rate := none }

def dbW5 : Db :=
  { employees := [{ id := 1, department_id := none, grade_id := none }]
    salaries := [{ id := 1, employee_id := 1, basic_salary := 1000 }]
    allowances :=
      [{ employee_id := 1, active := true, effective_from := none,
         effective_to := none, amount := 500 }]
    employee_etf_epf := [cfgW5] }

def dbW8 : Db :=
  { employees := [{ id := 3, department_id := some 4, grade_id := none }] }

def inpW8 : CreateInput :=
  { employee_id := 3, leave_type_id := 1, start_date := ⟨2024, 3, 1⟩,
    end_date := ⟨2024, 3, 1⟩, start_time := some ⟨9, 0⟩,
    end_time := some ⟨13, 0⟩, duration_hours := none }

def inpW8b : CreateInput :=
  { employee_id := 3, leave_type_id := 1, start_date := ⟨2024, 3, 1⟩,
    end_date := ⟨2024, 3, 5⟩, start_time := none, end_time := none,
    duration_hours := some 4 }

/-! ## Helper lemmas -/

theorem round2_nonneg {q : ℚ} (h : 0 ≤ q) : 0 ≤ round2 q := by
  have h1 : (0 : ℚ) ≤ q * 100 + 1 / 2 := by positivity
  have h2 : (0 : ℤ) ≤ ⌊q * 100 + 1 / 2⌋ := Int.floor_nonneg.mpr h1
  have h3 : (0 : ℚ) ≤ (⌊q * 100 + 1 / 2⌋ : ℚ) := by exact_mod_cast h2
  unfold round2
  exact div_nonneg h3 (by norm_num)

theorem balKey_set_used (e t y : Nat) (b : LeaveBalanceRow) (x : ℚ) :
    balKey e t y { b with used_days := x } = balKey e t y b := rfl

theorem usedSum_nil (p : LeaveBalanceRow → Bool) : usedSum [] p = 0 := rfl

theorem usedSum_cons (b : LeaveBalanceRow) (l : List LeaveBalanceRow)
    (p : LeaveBalanceRow → Bool) :
    usedSum (b :: l) p =
      (if p b then b.used_days else 0) + usedSum l p := by
  by_cases hb : p b = true
  · simp [usedSum, List.filter_cons, hb]
  · simp [usedSum, List.filter_cons, hb]

theorem usedSum_append (l1 l2 : List LeaveBalanceRow)
    (p : LeaveBalanceRow → Bool) :
    usedSum (l1 ++ l2) p = usedSum l1 p + usedSum l2 p := by
  simp [usedSum, List.filter_append]

theorem usedSum_addUsedToFirst_same (e t y : Nat) (δ : ℚ) :
    ∀ l : List LeaveBalanceRow, (l.find? (balKey e t y)).isSome →
      usedSum (addUsedToFirst (balKey e t y) δ l) (balKey e t y)
        = usedSum l (balKey e t y) + δ := by
  intro l
  induction l with
  | nil => intro h; simp [List.find?] at h
  | cons b rest ih =>
    intro h
    by_cases hb : balKey e t y b = true
    · have hbk : balKey e t y { b with used_days := b.used_days + δ } = true :=
        hb
      rw [addUsedToFirst, if_pos hb, usedSum_cons, usedSum_cons, if_pos hbk,
        if_pos hb]
      show b.used_days + δ + usedSum rest (balKey e t y)
          = b.used_days + usedSum rest (balKey e t y) + δ
      ring
    · have h' : (rest.find? (balKey e t y)).isSome := by
        simpa [List.find?_cons, hb] using h
      rw [addUsedToFirst, if_neg hb, usedSum_cons, usedSum_cons, if_neg hb,
        ih h']
      ring

theorem usedSum_addUsedToFirst_le (p : LeaveBalanceRow → Bool)
    (e t y : Nat) (δ : ℚ) (hδ : 0 ≤ δ) :
    ∀ l : List LeaveBalanceRow,
      usedSum l (balKey e t y) ≤
        usedSum (addUsedToFirst p δ l) (balKey e t y) := by
  intro l
  induction l with
  | nil => simp [addUsedToFirst]
  | cons b rest ih =>
    by_cases hb : p b = true
    · rw [addUsedToFirst, if_pos hb, usedSum_cons, usedSum_cons]
      by_cases hk : balKey e t y b = true
      · have hbk : balKey e t y { b with used_days := b.used_days + δ }
            = true := hk
        rw [if_pos hbk, if_pos hk]
        show b.used_days + usedSum rest (balKey e t y) ≤
          b.used_days + δ + usedSum rest (balKey e t y)
        linarith
      · have hbk : ¬ balKey e t y { b with used_days := b.used_days + δ }
            = true := hk
        rw [if_neg hbk, if_neg hk]
    · rw [addUsedToFirst, if_neg hb, usedSum_cons, usedSum_cons]
      exact add_le_add_left ih _

theorem balKey_self (e t y : Nat) (x z : ℚ) :
    balKey e t y
        { employee_id := e, leave_type_id := t, year := y,
          entitled_days := z, used_days := x } = true := by
  simp [balKey]

theorem usedSum_upsert_same (l : List LeaveBalanceRow) (e t y : Nat)
    (δ : ℚ) :
    usedSum (upsertBalanceList l e t y δ) (balKey e t y)
      = usedSum l (balKey e t y) + δ := by
  unfold upsertBalanceList
  by_cases h : (l.find? (balKey e t y)).isSome
  · rw [if_pos h]
    exact usedSum_addUsedToFirst_same e t y δ l h
  · rw [if_neg h, usedSum_append, usedSum_cons, usedSum_nil, balKey_self,
      if_pos rfl]
    ring

theorem usedSum_upsert_le (l : List LeaveBalanceRow)
    (e t y e2 t2 y2 : Nat) (δ : ℚ) (hδ : 0 ≤ δ) :
    usedSum l (balKey e t y) ≤
      usedSum (upsertBalanceList l e2 t2 y2 δ) (balKey e t y) := by
  unfold upsertBalanceList
  by_cases h : (l.find? (balKey e2 t2 y2)).isSome
  · rw [if_pos h]
    exact usedSum_addUsedToFirst_le _ e t y δ hδ l
  · rw [if_neg h, usedSum_append, usedSum_cons, usedSum_nil]
    have : (0 : ℚ) ≤
        (if balKey e t y
            { employee_id := e2, leave_type_id := t2, year := y2,
              entitled_days := 0, used_days := δ } = true
          then δ else 0) + 0 := by
      split
      · linarith
      · norm_num
    linarith

theorem requestUpdate_leave_balances (db : Db) (id : Nat) (s : LrStatus)
    (note : Option String) (u : Nat) (c : Clock) :
    (requestUpdate db id s note u c).leave_balances = db.leave_balances :=
  rfl

theorem requestUpdate_unpaid (db : Db) (id : Nat) (s : LrStatus)
    (note : Option String) (u : Nat) (c : Clock) :
    (requestUpdate db id s note u c).unpaid_leaves = db.unpaid_leaves :=
  rfl

theorem approveEffects_leave_requests (db : Db) (lr : LeaveRequestRow)
    (c : Clock) :
    (approveEffects db lr c).leave_requests = db.leave_requests := by
  unfold approveEffects
  rw [apply_ite Db.leave_requests]
  exact ite_self db.leave_requests

theorem approveEffects_leave_balances (db : Db) (lr : LeaveRequestRow)
    (c : Clock) :
    (approveEffects db lr c).leave_balances
      = upsertBalanceList db.leave_balances lr.employee_id
          lr.leave_type_id lr.start_date.y (round2 (lr.duration_hours / 9)) := by
  unfold approveEffects
  rw [apply_ite Db.leave_balances]
  exact ite_self _

theorem decideRequest_approve (db : Db) (id : Nat) (note : Option String)
    (u : Nat) (clk : Clock) (lr : LeaveRequestRow)
    (hfind : db.leave_requests.find? (fun r => r.id == id) = some lr)
    (hst : lr.status = LrStatus.PENDING) :
    decideRequest db id Action.APPROVE note u clk
      = (DecideOutcome.done LrStatus.APPROVED,
        approveEffects (requestUpdate db id LrStatus.APPROVED note u clk)
          lr clk) := by
  unfold decideRequest
  rw [hfind]
  simp [hst]

theorem decideRequest_nonApprove (db : Db) (id : Nat) (action : Action)
    (note : Option String) (u : Nat) (clk : Clock) (lr : LeaveRequestRow)
    (hfind : db.leave_requests.find? (fun r => r.id == id) = some lr)
    (hst : lr.status = LrStatus.PENDING) (hact : action ≠ Action.APPROVE) :
    decideRequest db id action note u clk
      = (DecideOutcome.done
          (if action = Action.REJECT then LrStatus.REJECTED else lr.status),
        requestUpdate db id
          (if action = Action.REJECT then LrStatus.REJECTED else lr.status)
          note u clk) := by
  unfold decideRequest
  rw [hfind]
  simp [hst, hact]

theorem totalUsed_set_balances (db : Db) (l : List LeaveBalanceRow)
    (e t y : Nat) :
    totalUsed { db with leave_balances := l } e t y
      = usedSum l (balKey e t y) := rfl

/-- Characterization of the breach generator: the `unpaid_leaves` table
after `approveEffects` gains exactly one row carrying the rounded excess
when the request's own applicable limit is positive and the post-upsert
total is more than 0.01 over it, and is untouched otherwise. -/
theorem approveEffects_unpaid (db : Db) (lr : LeaveRequestRow)
    (clock : Clock) :
    (approveEffects db lr clock).unpaid_leaves
      = if 0 < applicableLimit db lr ∧
            1 / 100 <
              totalUsed db lr.employee_id lr.leave_type_id lr.start_date.y
                + round2 (lr.duration_hours / 9) - applicableLimit db lr then
          db.unpaid_leaves ++
            [breachRow lr (applicableLimit db lr)
              (totalUsed db lr.employee_id lr.leave_type_id lr.start_date.y
                + round2 (lr.duration_hours / 9)) clock]
        else db.unpaid_leaves := by
  have hguard : (0 : ℚ) < 1 / 100 := by norm_num
  by_cases ht1 : lr.leave_type_id = 1
  · simp only [approveEffects, applicableLimit, breachRow, totalUsed,
      apply_ite Db.unpaid_leaves, totalUsed_set_balances, ht1,
      usedSum_upsert_same, if_true, eq_self_iff_true, true_and]
    norm_num
    set AL : ℚ :=
      match
        db.leave_rules.find? fun ru =>
          ru.grade_id ==
            match db.employees.find? fun e => e.id == lr.employee_id with
            | none => 0
            | some e => e.grade_id.getD 0 with
      | none => 0
      | some ru => ru.annual_limit.getD 0 with hAL
    set U : ℚ := usedSum db.leave_balances
      (balKey lr.employee_id 1 lr.start_date.y) with hU
    set δ : ℚ := round2 (lr.duration_hours / 9) with hδ
    by_cases hA : 0 < AL
    · by_cases hband : 1 / 100 < U + δ - AL
      · have hgt : AL < U + δ := by linarith
        have hin : 0 < AL ∧ AL < U + δ := ⟨hA, hgt⟩
        have hR : 0 < AL ∧ 1 / 100 < U + δ - AL := ⟨hA, hband⟩
        rw [if_pos hin, if_pos hband, if_pos hR, if_pos hin]
      · have hR : ¬(0 < AL ∧ 1 / 100 < U + δ - AL) := fun hc => hband hc.2
        by_cases hgt : AL < U + δ
        · have hin : 0 < AL ∧ AL < U + δ := ⟨hA, hgt⟩
          rw [if_pos hin, if_neg hband, if_neg hR]
        · have hin : ¬(0 < AL ∧ AL < U + δ) := fun hc => hgt hc.2
          rw [if_neg hin, if_neg hguard.asymm, if_neg hR]
    · have hin : ¬(0 < AL ∧ AL < U + δ) := fun hc => hA hc.1
      have hR : ¬(0 < AL ∧ 1 / 100 < U + δ - AL) := fun hc => hA hc.1
      rw [if_neg hin, if_neg hguard.asymm, if_neg hR]
  · by_cases ht2 : lr.leave_type_id = 2
    · simp only [approveEffects, applicableLimit, breachRow, totalUsed,
        apply_ite Db.unpaid_leaves, totalUsed_set_balances, ht2,
        usedSum_upsert_same, if_true, eq_self_iff_true, true_and]
      norm_num
      set ML : ℚ :=
        match
          db.leave_rules.find? fun ru =>
            ru.grade_id ==
              match db.employees.find? fun e => e.id == lr.employee_id with
              | none => 0
              | some e => e.grade_id.getD 0 with
        | none => 0
        | some ru => ru.medical_limit.getD 0 with hML
      set U : ℚ := usedSum db.leave_balances
        (balKey lr.employee_id 2 lr.start_date.y) with hU
      set δ : ℚ := round2 (lr.duration_hours / 9) with hδ
      by_cases hM : 0 < ML
      · by_cases hband : 1 / 100 < U + δ - ML
        · have hgt : ML < U + δ := by linarith
          have hin : 0 < ML ∧ ML < U + δ := ⟨hM, hgt⟩
          have hR : 0 < ML ∧ 1 / 100 < U + δ - ML := ⟨hM, hband⟩
          rw [if_pos hin, if_pos hband, if_pos hR, if_pos hin]
        · have hR : ¬(0 < ML ∧ 1 / 100 < U + δ - ML) := fun hc => hband hc.2
          by_cases hgt : ML < U + δ
          · have hin : 0 < ML ∧ ML < U + δ := ⟨hM, hgt⟩
            rw [if_pos hin, if_neg hband, if_neg hR]
          · have hin : ¬(0 < ML ∧ ML < U + δ) := fun hc => hgt hc.2
            rw [if_neg hin, if_neg hguard.asymm, if_neg hR]
      · have hin : ¬(0 < ML ∧ ML < U + δ) := fun hc => hM hc.1
        have hR : ¬(0 < ML ∧ 1 / 100 < U + δ - ML) := fun hc => hM hc.1
        rw [if_neg hin, if_neg hguard.asymm, if_neg hR]
    · simp only [approveEffects, applicableLimit, breachRow, totalUsed,
        apply_ite Db.unpaid_leaves, ht1, ht2, if_false, and_false,
        false_and, and_true, true_and]
      norm_num [ht1, ht2]

theorem requestUpdate_duration (db : Db) (id : Nat) (s : LrStatus)
    (note : Option String) (u : Nat) (c : Clock) (r : LeaveRequestRow)
    (hr : r ∈ (requestUpdate db id s note u c).leave_requests) :
    ∃ r0 ∈ db.leave_requests, r.duration_hours = r0.duration_hours := by
  unfold requestUpdate at hr
  simp only [List.mem_map] at hr
  obtain ⟨r0, hr0, heq⟩ := hr
  refine ⟨r0, hr0, ?_⟩
  subst heq
  split <;> rfl

theorem decide_durations_nonneg (db : Db) (id : Nat) (a : Action)
    (note : Option String) (u : Nat) (clk : Clock)
    (hdur : ∀ r ∈ db.leave_requests, 0 ≤ r.duration_hours) :
    ∀ r ∈ (decideRequest db id a note u clk).2.leave_requests,
      0 ≤ r.duration_hours := by
  intro r hr
  unfold decideRequest at hr
  cases hfind : db.leave_requests.find? (fun r => r.id == id) with
  | none =>
    rw [hfind] at hr
    exact hdur r hr
  | some lr =>
    rw [hfind] at hr
    dsimp only at hr
    by_cases hguard : lr.status ≠ LrStatus.PENDING ∧ a ≠ Action.RESPOND
    · rw [if_pos hguard] at hr
      exact hdur r hr
    · rw [if_neg hguard] at hr
      by_cases happ : a = Action.APPROVE
      · rw [if_pos happ] at hr
        simp only [approveEffects_leave_requests] at hr
        obtain ⟨r0, hr0, hde⟩ := requestUpdate_duration _ _ _ _ _ _ r hr
        rw [hde]
        exact hdur r0 hr0
      · rw [if_neg happ] at hr
        obtain ⟨r0, hr0, hde⟩ := requestUpdate_duration _ _ _ _ _ _ r hr
        rw [hde]
        exact hdur r0 hr0

theorem totalUsed_decide_le (db : Db) (id : Nat) (a : Action)
    (note : Option String) (u : Nat) (clk : Clock) (e t y : Nat)
    (hdur : ∀ r ∈ db.leave_requests, 0 ≤ r.duration_hours) :
    totalUsed db e t y ≤
      totalUsed (decideRequest db id a note u clk).2 e t y := by
  unfold decideRequest
  cases hfind : db.leave_requests.find? (fun r => r.id == id) with
  | none => exact le_refl _
  | some lr =>
    dsimp only
    by_cases hguard : lr.status ≠ LrStatus.PENDING ∧ a ≠ Action.RESPOND
    · rw [if_pos hguard]
    · rw [if_neg hguard]
      by_cases happ : a = Action.APPROVE
      · rw [if_pos happ]
        show totalUsed db e t y ≤ totalUsed (approveEffects _ lr clk) e t y
        have hmem : lr ∈ db.leave_requests := List.mem_of_find?_eq_some hfind
        have hd : 0 ≤ lr.duration_hours := hdur lr hmem
        have hδ : 0 ≤ round2 (lr.duration_hours / 9) :=
          round2_nonneg (by positivity)
        unfold totalUsed
        rw [approveEffects_leave_balances, requestUpdate_leave_balances]
        exact usedSum_upsert_le db.leave_balances e t y _ _ _ _ hδ
      · rw [if_neg happ]
        exact le_refl _

theorem totalUsed_applyDecides_le (calls : List DecideCall) :
    ∀ (db : Db) (e t y : Nat),
      (∀ r ∈ db.leave_requests, 0 ≤ r.duration_hours) →
      totalUsed db e t y ≤ totalUsed (applyDecides db calls) e t y := by
  induction calls with
  | nil => intro db e t y _; exact le_refl _
  | cons c rest ih =>
    intro db e t y hdur
    rw [applyDecides]
    refine le_trans (totalUsed_decide_le db c.id c.action c.note c.user_id
      c.clock e t y hdur) ?_
    exact ih _ e t y
      (decide_durations_nonneg db c.id c.action c.note c.user_id c.clock hdur)

/-! ### ETF/EPF idempotence lemmas -/

theorem txFor_ne_nil_isSome (db : Db) (e y m : Nat)
    (h : txFor db e y m ≠ []) :
    (db.payroll_etf_epf_transactions.find? (txKey e y m)).isSome := by
  rw [List.find?_isSome]
  by_contra hno
  push_neg at hno
  exact h (List.filter_eq_nil_iff.mpr hno)

theorem txFor_etfEpfStep (db : Db) (y m u e2 e : Nat)
    (h : txFor db e y m ≠ []) :
    txFor (etfEpfStep y m u db e2).1 e y m = txFor db e y m := by
  unfold etfEpfStep
  by_cases hex :
      (db.payroll_etf_epf_transactions.find? (txKey e2 y m)).isSome
  · rw [if_pos hex]
  · rw [if_neg hex]
    cases hcfg : db.employee_etf_epf.find? (fun c => c.employee_id == e2) with
    | none => rfl
    | some rates =>
      dsimp only
      by_cases hg :
          (getGrossComponentsForPeriod db e2 y m).gross_salary_for_epf ≤ 0
      · rw [if_pos hg]
      · rw [if_neg hg]
        show txFor _ e y m = txFor db e y m
        unfold txFor
        dsimp only
        rw [List.filter_append]
        have hne : e2 ≠ e := by
          intro hee
          subst hee
          exact hex (txFor_ne_nil_isSome db e2 y m h)
        have hrow : txKey e y m
            { employee_id := e2, period_year := y, period_month := m,
              gross_salary :=
                round2 (getGrossComponentsForPeriod db e2 y m).gross_salary_for_epf,
              employee_epf_amount :=
                round2 ((getGrossComponentsForPeriod db e2 y m).gross_salary_for_epf
                  * rates.epf_contribution_rate.getD 8 / 100),
              epf_employer_share :=
                round2 ((getGrossComponentsForPeriod db e2 y m).gross_salary_for_epf
                  * rates.employer_epf_rate.getD 12 / 100),
              employer_etf_amount :=
                round2 ((getGrossComponentsForPeriod db e2 y m).gross_salary_for_epf
                  * rates.etf_contribution_rate.getD 3 / 100),
              processed_by := u } = false := by
          simp [txKey, hne]
        simp [hrow]

theorem txFor_etfEpfLoop (y m u : Nat) (ids : List Nat) :
    ∀ (db : Db) (e : Nat), txFor db e y m ≠ [] →
      txFor (etfEpfLoop y m u db ids).1 e y m = txFor db e y m := by
  induction ids with
  | nil => intro db e _; rfl
  | cons e2 rest ih =>
    intro db e h
    rw [etfEpfLoop]
    dsimp only
    have hstep := txFor_etfEpfStep db y m u e2 e h
    have h2 : txFor (etfEpfStep y m u db e2).1 e y m ≠ [] := by
      rw [hstep]; exact h
    rw [ih _ e h2, hstep]

theorem txFor_process (db : Db) (ids : List Nat) (y m u e : Nat)
    (h : txFor db e y m ≠ []) :
    txFor (processEtfEpfPayments db ids y m u).2 e y m = txFor db e y m := by
  unfold processEtfEpfPayments
  by_cases hbad : m = 0 ∨ y = 0 ∨ ids = []
  · rw [if_pos hbad]
  · rw [if_neg hbad]
    exact txFor_etfEpfLoop y m u ids db e h

/-! ## Claim theorems -/

/-- C1: for every database state, employee and (year, month) period, the
gross salary equals basic + allowances + overtime + bonuses, and the two
independent aggregators — the payroll controller's `calculateGrossSalary`
and the ETF/EPF controller's `getGrossComponentsForPeriod` — return the
identical gross value (and identical components) on the same inputs, so
the payslip view, the transfer path and the EPF calculator all report the
same gross. -/
theorem claim1_gross_consistency :
    ∀ (db : Db) (employee_id year month : Nat),
      (calculateGrossSalary db employee_id year month).gross_salary
        = (calculateGrossSalary db employee_id year month).basic_salary
          + (calculateGrossSalary db employee_id year month).allowances
          + (calculateGrossSalary db employee_id year month).overtime
          + (calculateGrossSalary db employee_id year month).bonuses
      ∧ (getGrossComponentsForPeriod db employee_id year month).gross_salary_for_epf
          = (calculateGrossSalary db employee_id year month).gross_salary
      ∧ (getGrossComponentsForPeriod db employee_id year month).basic_salary
          = (calculateGrossSalary db employee_id year month).basic_salary
      ∧ (getGrossComponentsForPeriod db employee_id year month).allowances_sum
          = (calculateGrossSalary db employee_id year month).allowances
      ∧ (getGrossComponentsForPeriod db employee_id year month).overtime_sum
          = (calculateGrossSalary db employee_id year month).overtime
      ∧ (getGrossComponentsForPeriod db employee_id year month).compensation_sum
          = (calculateGrossSalary db employee_id year month).bonuses :=
  fun _ _ _ _ => ⟨rfl, rfl, rfl, rfl, rfl, rfl⟩

/-- C4: deciding a request whose status is not PENDING with any action
other than RESPOND answers the `Already decided` error and performs no
writes at all: the returned database state is exactly the input state
(request row, leave_balances and unpaid_leaves included). -/
theorem claim4_already_decided_no_writes :
    ∀ (db : Db) (id : Nat) (action : Action) (note : Option String)
      (u : Nat) (clk : Clock) (lr : LeaveRequestRow),
      db.leave_requests.find? (fun r => r.id == id) = some lr →
      lr.status ≠ LrStatus.PENDING →
      action ≠ Action.RESPOND →
      decideRequest db id action note u clk
        = (DecideOutcome.alreadyDecided, db) := by
  intro db id action note u clk lr hfind hst hact
  unfold decideRequest
  rw [hfind]
  dsimp only
  rw [if_pos ⟨hst, hact⟩]

theorem claim4_already_decided_no_writes_witness :
    dbW4.leave_requests.find? (fun r => r.id == 20) = some lrW4
    ∧ lrW4.status ≠ LrStatus.PENDING
    ∧ Action.APPROVE ≠ Action.RESPOND
    ∧ decideRequest dbW4 20 Action.APPROVE none 9 ⟨60, ⟨2024, 2, 7⟩⟩
        = (DecideOutcome.alreadyDecided, dbW4) :=
  ⟨rfl, by decide, by decide,
    claim4_already_decided_no_writes dbW4 20 Action.APPROVE none 9
      ⟨60, ⟨2024, 2, 7⟩⟩ lrW4 rfl (by decide) (by decide)⟩

/-- C9: a RESPOND decision on a PENDING request reports success, leaves
the status PENDING, performs no leave_balances upsert and no
unpaid_leaves insert, and modifies only `decided_by_user_id`,
`decided_at` and (through `COALESCE`) `decision_note` on the request
row. -/
theorem claim9_respond_frame :
    ∀ (db : Db) (id : Nat) (note : Option String) (u : Nat) (clk : Clock)
      (lr : LeaveRequestRow),
      db.leave_requests.find? (fun r => r.id == id) = some lr →
      lr.status = LrStatus.PENDING →
      decideRequest db id Action.RESPOND note u clk
        = (DecideOutcome.done LrStatus.PENDING,
          { db with
              leave_requests :=
                db.leave_requests.map fun r =>
                  if r.id = id then
                    { r with
                        status := LrStatus.PENDING
                        decided_by_user_id := some u
                        decided_at := some clk.tick
                        decision_note :=
                          match note with
                          | some n => some n
                          | none => r.decision_note }
                  else r }) := by
  intro db id note u clk lr hfind hst
  have h := decideRequest_nonApprove db id Action.RESPOND note u clk lr hfind
    hst (by decide)
  rw [h]
  simp [requestUpdate, hst]

theorem claim9_respond_frame_witness :
    dbW9.leave_requests.find? (fun r => r.id == 21) = some lrW9
    ∧ lrW9.status = LrStatus.PENDING
    ∧ decideRequest dbW9 21 Action.RESPOND (some "noted") 4 ⟨70, ⟨2024, 2, 8⟩⟩
        = (DecideOutcome.done LrStatus.PENDING,
          { dbW9 with
              leave_requests :=
                dbW9.leave_requests.map fun r =>
                  if r.id = 21 then
                    { r with
                        status := LrStatus.PENDING
                        decided_by_user_id := some 4
                        decided_at := some (70 : Nat)
                        decision_note :=
                          match some "noted" with
                          | some n => some n
                          | none => r.decision_note }
                  else r }) :=
  ⟨rfl, rfl,
    claim9_respond_frame dbW9 21 (some "noted") 4 ⟨70, ⟨2024, 2, 8⟩⟩ lrW9 rfl
      rfl⟩

/-- C10: creating a leave request for an employee id that is not in the
employees table answers NotFound and inserts nothing — the returned state
is exactly the input state. -/
theorem claim10_create_notfound :
    ∀ (db : Db) (inp : CreateInput) (user_id newId : Nat),
      db.employees.find? (fun e => e.id == inp.employee_id) = none →
      createRequest db inp user_id newId = (CreateOutcome.notFound, db) := by
  intro db inp user_id newId h
  unfold createRequest
  rw [h]

theorem claim10_create_notfound_witness :
    (Db.mk [] [] [] [] [] [] [] [] [] [] [] [] []).employees.find?
        (fun e => e.id == inpW10.employee_id) = none
    ∧ createRequest (Db.mk [] [] [] [] [] [] [] [] [] [] [] [] [])
        inpW10 1 7
        = (CreateOutcome.notFound, Db.mk [] [] [] [] [] [] [] [] [] [] [] [] []) :=
  ⟨rfl,
    claim10_create_notfound (Db.mk [] [] [] [] [] [] [] [] [] [] [] [] [])
      inpW10 1 7 rfl⟩

/-- C7 (code bug): one employee with full payroll data and no prior
transfer; the batch endpoint answers a server error, rolls the whole
transaction back and inserts no `payroll_transfers` row — and a second
identical call behaves the same — because `getEmployeePayrollDetails`
sends its payload through `res.json(...)` without returning it, so the
caller's `payrollData.ok` dereferences `undefined` and throws before the
insert is reached.  The claimed one-row-then-skip behaviour never
occurs. -/
theorem claim7_transfer_crash :
    processSalaryTransfer dbC7 [1] 2024 5
      = (TransferOutcome.serverError, dbC7)
    ∧ dbC7.payroll_transfers = []
    ∧ processSalaryTransfer
        (processSalaryTransfer dbC7 [1] 2024 5).2 [1] 2024 5
        = (TransferOutcome.serverError, dbC7) :=
  ⟨rfl, rfl, rfl⟩

theorem txFor_foldl (y m e : Nat) (runs : List (List Nat × Nat)) :
    ∀ db : Db, txFor db e y m ≠ [] →
      txFor (runs.foldl
          (fun s r => (processEtfEpfPayments s r.1 y m r.2).2) db) e y m
        = txFor db e y m := by
  induction runs with
  | nil => intro db _; rfl
  | cons r rest ih =>
    intro db h
    rw [List.foldl_cons]
    have h1 := txFor_process db r.1 y m r.2 e h
    have h2 : txFor (processEtfEpfPayments db r.1 y m r.2).2 e y m ≠ [] := by
      rw [h1]; exact h
    rw [ih _ h2, h1]

/-- C6: whenever an (employee, period) key already holds exactly one
`payroll_etf_epf_transactions` row, any number of further processing runs
for that period — with any employee lists — leaves the rows for that key
literally unchanged: the employee is skipped, no row is added and the
existing row is not updated, so the count stays 1. -/
theorem claim6_etf_epf_idempotent :
    ∀ (db : Db) (e y m : Nat) (runs : List (List Nat × Nat)),
      (txFor db e y m).length = 1 →
      txFor (runs.foldl
          (fun s r => (processEtfEpfPayments s r.1 y m r.2).2) db) e y m
        = txFor db e y m
      ∧ (txFor (runs.foldl
          (fun s r => (processEtfEpfPayments s r.1 y m r.2).2) db) e y m).length
        = 1 := by
  intro db e y m runs h
  have hne : txFor db e y m ≠ [] := by
    intro hnil
    rw [hnil] at h
    simp at h
  have hinv := txFor_foldl y m e runs db hne
  exact ⟨hinv, by rw [hinv]; exact h⟩

theorem claim6_etf_epf_idempotent_witness :
    (txFor dbW6 1 2024 5).length = 1
    ∧ txFor ([([1], 9), ([1, 3], 9)].foldl
        (fun s r => (processEtfEpfPayments s r.1 2024 5 r.2).2) dbW6) 1 2024 5
        = txFor dbW6 1 2024 5
    ∧ (txFor ([([1], 9), ([1, 3], 9)].foldl
        (fun s r => (processEtfEpfPayments s r.1 2024 5 r.2).2) dbW6) 1 2024 5).length
        = 1 :=
  ⟨rfl,
    (claim6_etf_epf_idempotent dbW6 1 2024 5 [([1], 9), ([1, 3], 9)] rfl).1,
    (claim6_etf_epf_idempotent dbW6 1 2024 5 [([1], 9), ([1, 3], 9)] rfl).2⟩

/-- C2: approving a PENDING leave request inserts exactly one
`unpaid_leaves` row if and only if the applicable limit for the request's
own leave type is positive and the post-upsert total `used_days` exceeds
that limit by more than 0.01; the row carries the rounded excess (never
the full request span), the request's `start_date`/`end_date`, and the
`Pending` status.  In particular a zero (unset) limit never produces a
row. -/
theorem claim2_breach_generator :
    ∀ (db : Db) (id : Nat) (note : Option String) (u : Nat) (clk : Clock)
      (lr : LeaveRequestRow),
      db.leave_requests.find? (fun r => r.id == id) = some lr →
      lr.status = LrStatus.PENDING →
      ((0 < applicableLimit db lr ∧
          1 / 100 <
            totalUsed db lr.employee_id lr.leave_type_id lr.start_date.y
              + round2 (lr.duration_hours / 9) - applicableLimit db lr) →
        (decideRequest db id Action.APPROVE note u clk).2.unpaid_leaves
          = db.unpaid_leaves ++
            [breachRow lr (applicableLimit db lr)
              (totalUsed db lr.employee_id lr.leave_type_id lr.start_date.y
                + round2 (lr.duration_hours / 9)) clk])
      ∧ (¬(0 < applicableLimit db lr ∧
          1 / 100 <
            totalUsed db lr.employee_id lr.leave_type_id lr.start_date.y
              + round2 (lr.duration_hours / 9) - applicableLimit db lr) →
        (decideRequest db id Action.APPROVE note u clk).2.unpaid_leaves
          = db.unpaid_leaves) := by
  intro db id note u clk lr hfind hst
  rw [decideRequest_approve db id note u clk lr hfind hst]
  dsimp only
  have hch :=
    approveEffects_unpaid (requestUpdate db id LrStatus.APPROVED note u clk)
      lr clk
  have hlim : applicableLimit (requestUpdate db id LrStatus.APPROVED note u clk) lr
      = applicableLimit db lr := rfl
  have htot : totalUsed (requestUpdate db id LrStatus.APPROVED note u clk)
      lr.employee_id lr.leave_type_id lr.start_date.y
      = totalUsed db lr.employee_id lr.leave_type_id lr.start_date.y := rfl
  have hun : (requestUpdate db id LrStatus.APPROVED note u clk).unpaid_leaves
      = db.unpaid_leaves := rfl
  rw [hch, hlim, htot, hun]
  constructor
  · intro hc
    rw [if_pos hc]
  · intro hc
    rw [if_neg hc]

/-- Witness for C2, the spec's own scenario: annual limit 14, prior used
13, an 18-hour (2-day) approval takes the total to 15, and exactly one
UnpaidLeave row with `total_days = 1.00` appears. -/
theorem claim2_breach_generator_witness :
    dbW2.leave_requests.find? (fun r => r.id == 10) = some lrW2
    ∧ lrW2.status = LrStatus.PENDING
    ∧ (decideRequest dbW2 10 Action.APPROVE none 7
        ⟨100, ⟨2024, 3, 6⟩⟩).2.unpaid_leaves
        = [{ employee_id := 1, start_date := ⟨2024, 3, 4⟩,
             end_date := ⟨2024, 3, 5⟩, total_days := 1,
             reason := BreachReason.annualExceeded 14 1,
             status := UlStatus.Pending, deduction_amount := none,
             updated_at := ⟨2024, 3, 6⟩ }] := by
  refine ⟨rfl, rfl, ?_⟩
  have hcond : 0 < applicableLimit dbW2 lrW2 ∧
      1 / 100 <
        totalUsed dbW2 lrW2.employee_id lrW2.leave_type_id lrW2.start_date.y
          + round2 (lrW2.duration_hours / 9) - applicableLimit dbW2 lrW2 := by
    norm_num [applicableLimit, totalUsed, usedSum, balKey, round2, dbW2, lrW2,
      List.find?]
  have h := (claim2_breach_generator dbW2 10 none 7 ⟨100, ⟨2024, 3, 6⟩⟩ lrW2
    rfl rfl).1 hcond
  rw [h]
  norm_num [breachRow, applicableLimit, totalUsed, usedSum, balKey, round2,
    dbW2, lrW2, List.find?]

/-- Counterexample to C3 as stated: approving a PENDING 4-hour request
stores `round2 (4 / 9) = 0.44` used days, not `4 / 9 = 0.444...` — the
delta is rounded to two decimals (`(duration_hours / 9).toFixed(2)`)
before the upsert, so `used_days_after ≠ used_days_before +
duration_hours / 9`. -/
theorem claim3_counterexample :
    dbC3.leave_requests.find? (fun r => r.id == 30) = some lrC3
    ∧ lrC3.status = LrStatus.PENDING
    ∧ totalUsed (decideRequest dbC3 30 Action.APPROVE none 1
          ⟨1, ⟨2024, 4, 2⟩⟩).2
        lrC3.employee_id lrC3.leave_type_id lrC3.start_date.y
        ≠ totalUsed dbC3 lrC3.employee_id lrC3.leave_type_id lrC3.start_date.y
          + lrC3.duration_hours / 9 := by
  refine ⟨rfl, rfl, ?_⟩
  norm_num [decideRequest, requestUpdate, approveEffects, upsertBalanceList,
    addUsedToFirst, balKey, totalUsed, usedSum, round2, dbC3, lrC3,
    List.find?]

/-- C3 (amended): the stored `used_days` total for (employee, leave type,
year of `start_date`) after approving a PENDING request equals the total
before plus `round2 (duration_hours / 9)` — the per-request delta is
rounded to two decimals before the additive upsert — and over any
sequence of decision calls the total is monotonically non-decreasing,
provided every stored request's `duration_hours` is nonnegative. -/
theorem claim3_used_days_delta_rounded :
    (∀ (db : Db) (id : Nat) (note : Option String) (u : Nat) (clk : Clock)
        (lr : LeaveRequestRow),
        db.leave_requests.find? (fun r => r.id == id) = some lr →
        lr.status = LrStatus.PENDING →
        totalUsed (decideRequest db id Action.APPROVE note u clk).2
            lr.employee_id lr.leave_type_id lr.start_date.y
          = totalUsed db lr.employee_id lr.leave_type_id lr.start_date.y
            + round2 (lr.duration_hours / 9))
    ∧ (∀ (db : Db) (calls : List DecideCall) (e t y : Nat),
        (∀ r ∈ db.leave_requests, 0 ≤ r.duration_hours) →
        totalUsed db e t y ≤ totalUsed (applyDecides db calls) e t y) := by
  constructor
  · intro db id note u clk lr hfind hst
    rw [decideRequest_approve db id note u clk lr hfind hst]
    dsimp only
    unfold totalUsed
    rw [approveEffects_leave_balances, requestUpdate_leave_balances,
      usedSum_upsert_same]
  · intro db calls e t y hdur
    exact totalUsed_applyDecides_le calls db e t y hdur

theorem claim3_used_days_delta_rounded_witness :
    dbW3.leave_requests.find? (fun r => r.id == 31) = some lrW3
    ∧ lrW3.status = LrStatus.PENDING
    ∧ totalUsed (decideRequest dbW3 31 Action.APPROVE none 7
          ⟨100, ⟨2024, 3, 6⟩⟩).2
        lrW3.employee_id lrW3.leave_type_id lrW3.start_date.y = 15
    ∧ totalUsed dbW3 1 1 2024
        ≤ totalUsed
            (applyDecides dbW3
              [{ id := 31, action := Action.APPROVE, note := none,
                 user_id := 7, clock := ⟨100, ⟨2024, 3, 6⟩⟩ }]) 1 1 2024 := by
  refine ⟨rfl, rfl, ?_, ?_⟩
  · have h := claim3_used_days_delta_rounded.1 dbW3 31 none 7
      ⟨100, ⟨2024, 3, 6⟩⟩ lrW3 rfl rfl
    rw [h]
    norm_num [totalUsed, usedSum, balKey, round2, dbW3, lrW3]
  · refine claim3_used_days_delta_rounded.2 dbW3 _ 1 1 2024 ?_
    intro r hr
    have : r = lrW3 := by simpa [dbW3] using hr
    rw [this]
    norm_num [lrW3]

/-- Counterexample to C5 as stated: for an employee with basic 1000 and
an active allowance of 500 (gross 1500), the payslip endpoint reports an
employer EPF of `1000 * 12 / 100 = 120`, not `gross * 12 / 100 = 180` —
`getEmployeePayrollDetails` multiplies the employer rates into
`earnings.basic_salary`, not into the gross. -/
theorem claim5_counterexample :
    (getEmployeePayrollDetails dbC5 1 2024 5).map (fun p => p.employer_epf)
      ≠ some ((calculateGrossSalary dbC5 1 2024 5).gross_salary * 12 / 100) := by
  norm_num [getEmployeePayrollDetails, calculateGrossSalary,
    calculateDeductions, latestBasicSalary, payslipEmployerEpfRate,
    payslipEmployerEtfRate, usedSum, dbC5, List.find?]

/-- C5 (amended): the EPF/ETF processor's transaction amounts are the
2-decimal-rounded percentages of the recomputed gross — `employee_epf =
gross * epf_rate / 100`, `employer_epf = gross * employer_epf_rate /
100`, `employer_etf = gross * etf_rate / 100`, rates coalesced to 8/12/3
when unset — while the payslip's `employer_contributions` are computed
from the basic salary instead: `employer_epf = basic * employer_epf_rate
/ 100` and `employer_etf = basic * etf_rate / 100` (same defaults). -/
theorem claim5_contributions_amended :
    (∀ (db : Db) (e y m user : Nat) (cfg : EtfEpfConfigRow),
        0 < y → 0 < m →
        db.payroll_etf_epf_transactions.find? (txKey e y m) = none →
        db.employee_etf_epf.find? (fun c => c.employee_id == e) = some cfg →
        0 < (getGrossComponentsForPeriod db e y m).gross_salary_for_epf →
        (processEtfEpfPayments db [e] y m user).2.payroll_etf_epf_transactions
          = db.payroll_etf_epf_transactions ++
            [{ employee_id := e, period_year := y, period_month := m,
               gross_salary :=
                 round2 (getGrossComponentsForPeriod db e y m).gross_salary_for_epf,
               employee_epf_amount :=
                 round2 ((getGrossComponentsForPeriod db e y m).gross_salary_for_epf
                   * cfg.epf_contribution_rate.getD 8 / 100),
               epf_employer_share :=
                 round2 ((getGrossComponentsForPeriod db e y m).gross_salary_for_epf
                   * cfg.employer_epf_rate.getD 12 / 100),
               employer_etf_amount :=
                 round2 ((getGrossComponentsForPeriod db e y m).gross_salary_for_epf
                   * cfg.etf_contribution_rate.getD 3 / 100),
               processed_by := user }])
    ∧ (∀ (db : Db) (e y m : Nat) (p : PayrollDetails),
        getEmployeePayrollDetails db e y m = some p →
        p.employer_epf
            = (calculateGrossSalary db e y m).basic_salary
              * payslipEmployerEpfRate db e / 100
          ∧ p.employer_etf
            = (calculateGrossSalary db e y m).basic_salary
              * payslipEmployerEtfRate db e / 100) := by
  constructor
  · intro db e y m user cfg hy hm hex hcfg hg
    unfold processEtfEpfPayments
    have hbad : ¬(m = 0 ∨ y = 0 ∨ ([e] : List Nat) = []) := by
      push_neg
      refine ⟨by omega, by omega, by simp⟩
    rw [if_neg hbad]
    dsimp only
    rw [etfEpfLoop]
    unfold etfEpfStep
    rw [hex]
    dsimp only [Option.isSome]
    rw [if_neg (by simp : ¬(false = true)), hcfg]
    dsimp only
    rw [if_neg (not_le.mpr hg)]
    rw [etfEpfLoop]
  · intro db e y m p hp
    unfold getEmployeePayrollDetails at hp
    cases hfind : db.employees.find? (fun x => x.id == e) with
    | none =>
      rw [hfind] at hp
      exact absurd hp (by simp)
    | some w =>
      rw [hfind] at hp
      dsimp only at hp
      rw [Option.some_inj] at hp
      rw [← hp]
      exact ⟨rfl, rfl⟩

/-- Witness for the amended C5, matching the spec's worked example for
the processor (gross 1500 at default rates 8/12/3 yields 120/180/45)
while the payslip, for the same employee, computes its employer EPF from
the basic salary (1000 · 12% = 120). -/
theorem claim5_contributions_amended_witness :
    dbW5.payroll_etf_epf_transactions.find? (txKey 1 2024 5) = none
    ∧ dbW5.employee_etf_epf.find? (fun c => c.employee_id == 1) = some cfgW5
    ∧ 0 < (getGrossComponentsForPeriod dbW5 1 2024 5).gross_salary_for_epf
    ∧ (processEtfEpfPayments dbW5 [1] 2024 5 9).2.payroll_etf_epf_transactions
        = [{ employee_id := 1, period_year := 2024, period_month := 5,
             gross_salary := 1500, employee_epf_amount := 120,
             epf_employer_share := 180, employer_etf_amount := 45,
             processed_by := 9 }]
    ∧ getEmployeePayrollDetails dbW5 1 2024 5
        = some { gross_salary := 1500, total_deductions := 80,
                 net_salary := 1420, employer_epf := 120, employer_etf := 30 }
    ∧ (120 : ℚ)
        = (calculateGrossSalary dbW5 1 2024 5).basic_salary
          * payslipEmployerEpfRate dbW5 1 / 100 := by
  have hgross : 0 <
      (getGrossComponentsForPeriod dbW5 1 2024 5).gross_salary_for_epf := by
    norm_num [getGrossComponentsForPeriod, latestBasicSalary, dbW5]
  have hdetails : getEmployeePayrollDetails dbW5 1 2024 5
      = some { gross_salary := 1500, total_deductions := 80,
               net_salary := 1420, employer_epf := 120, employer_etf := 30 } := by
    norm_num [getEmployeePayrollDetails, calculateGrossSalary,
      calculateDeductions, latestBasicSalary, payslipEmployerEpfRate,
      payslipEmployerEtfRate, usedSum, dbW5, cfgW5, List.find?]
  refine ⟨rfl, rfl, hgross, ?_, hdetails, ?_⟩
  · have h := claim5_contributions_amended.1 dbW5 1 2024 5 9 cfgW5
      (by norm_num) (by norm_num) rfl rfl hgross
    rw [h]
    norm_num [getGrossComponentsForPeriod, latestBasicSalary, round2, dbW5,
      cfgW5]
  · have h2 := (claim5_contributions_amended.2 dbW5 1 2024 5
      { gross_salary := 1500, total_deductions := 80, net_salary := 1420,
        employer_epf := 120, employer_etf := 30 } hdetails).1
    exact h2

/-- C8: when the caller supplies an explicit non-null `duration_hours`
it is stored verbatim (no recomputation, whatever the date span);
otherwise the stored duration is the end-minus-start difference in
minutes (start time defaulting to 09:00, end time to 18:00), divided by
60, floored at 0, rounded to two decimals. -/
theorem claim8_duration_storage :
    ∀ (db : Db) (inp : CreateInput) (user_id newId : Nat)
      (emp : EmployeeRow),
      db.employees.find? (fun e => e.id == inp.employee_id) = some emp →
      (createRequest db inp user_id newId).2.leave_requests
        = db.leave_requests ++
          [{ id := newId, employee_id := inp.employee_id,
             leave_type_id := inp.leave_type_id,
             start_date := inp.start_date, end_date := inp.end_date,
             start_time := inp.start_time, end_time := inp.end_time,
             duration_hours :=
               match inp.duration_hours with
               | some d => d
               | none =>
                 round2
                   ((((max 0
                       ((toMinutes inp.end_date (inp.end_time.getD ⟨18, 0⟩) : ℤ)
                         - (toMinutes inp.start_date
                             (inp.start_time.getD ⟨9, 0⟩) : ℤ)) : ℤ) : ℚ)) / 60),
             department_id := emp.department_id, status := LrStatus.PENDING,
             created_by_user_id := user_id, decided_by_user_id := none,
             decided_at := none, decision_note := none }] := by
  intro db inp user_id newId emp h
  unfold createRequest
  rw [h]
  cases hd : inp.duration_hours with
  | none =>
    dsimp only
    rfl
  | some d =>
    dsimp only

/-- Witness for C8: the spec's example 2024-03-01 09:00 → 13:00 with no
explicit duration stores 4.00 hours, and an explicit `duration_hours =
4.0` over a multi-day span is stored verbatim as 4. -/
theorem claim8_duration_storage_witness :
    dbW8.employees.find? (fun e => e.id == inpW8.employee_id)
        = some { id := 3, department_id := some 4, grade_id := none }
    ∧ ((createRequest dbW8 inpW8 2 11).2.leave_requests.map
        (fun r => r.duration_hours)) = [4]
    ∧ ((createRequest dbW8 inpW8b 2 12).2.leave_requests.map
        (fun r => r.duration_hours)) = [4] := by
  refine ⟨rfl, ?_, ?_⟩
  · have h := claim8_duration_storage dbW8 inpW8 2 11
      { id := 3, department_id := some 4, grade_id := none } rfl
    rw [h]
    norm_num [toMinutes, daysFromCivil, round2, inpW8, dbW8]
  · have h := claim8_duration_storage dbW8 inpW8b 2 12
      { id := 3, department_id := some 4, grade_id := none } rfl
    rw [h]
    norm_num [inpW8b, dbW8]

end Payroll
